import Mathlib

/-!
Shallow embedding of `RedmineAPI.py` (class `RedmineInterface`).

Modelling choices:
* HTTP transport is abstracted as a function `Nat → Response`: the i-th
  request issued by a retry loop receives response `t i`.  Response bodies
  are modelled at the level of decoded JSON documents (`JVal`); the
  `json.loads` step of the source is absorbed into this representation.
* The Python `while` loops of `__get_request_timeout`,
  `__put_request_timeout` and `download_file` count `tries` from 0 up to 10;
  they are translated as structural recursion on `fuel = 10 - tries`, which
  is an exact state mapping (see the doc comments of the loop functions).
* Raised exceptions become constructors of outcome types:
  `RedmineConnectionError` with the invalid-key message is `authError`,
  `RedmineConnectionError` with the could-not-connect message is
  `exhausted`, `RedmineUploadError` is `stagingFailed`.
* `logging` and `print` side effects, and the literal request URLs built by
  `urljoin`, are not observable by any claim and are not modelled; a loop
  trace records the observable effects (number of transport invocations and
  the sleep durations).
-/

namespace RedmineAPI

/-- JSON values, modelling decoded JSON documents exchanged with the server.
Object fields are kept in insertion order, as Python dicts do. -/
inductive JVal where
  | null
  | bool (b : Bool)
  | num (n : Int)
  | str (s : String)
  | arr (elems : List JVal)
  | obj (fields : List (String × JVal))

/-- Key lookup in a JSON object; `none` models the KeyError / TypeError
raised by Python subscripting on a missing key or a non-dict value. -/
def JVal.lookupKey : JVal → String → Option JVal
  | .obj fields, k => fields.lookup k
  | _, _ => none

/-- An HTTP response as seen by the client: status code and decoded body. -/
structure Response where
  status_code : Nat
  content : JVal

/-- The i-th request issued by a loop receives response `t i`. -/
abbrev Transport := Nat → Response

/-- The mutable state of a `RedmineInterface` object: `self.url`,
`self.api_key` and `self.wait` (lines 19, 23, 24 of the source). -/
structure ClientState where
  url : String
  api_key : String
  wait : Nat

/-- Observable effects of one retry loop: how many transport requests were
issued and the sleep durations in order. -/
structure LoopTrace where
  requests : Nat
  sleeps : List Nat

/-- Result of `__get_request_timeout`: parsed document on 200, the
invalid-api-key `RedmineConnectionError` on an in-budget 401, the
could-not-connect `RedmineConnectionError` on retry exhaustion. -/
inductive GetOutcome where
  | success (doc : JVal)
  | authError (body : JVal)
  | exhausted (status : Nat) (body : JVal)

/-- True exactly for the `authError` outcome. -/
def GetOutcome.isAuthError : GetOutcome → Bool
  | .authError _ => true
  | _ => false

/-- Retry loop of `__get_request_timeout` (source lines 173-191).
The Python state is `(resp, tries)` with the loop
`while resp.status_code != 200 and tries < 10`; here `fuel = 10 - tries`.
With `fuel = 0` (that is `tries = 10`) the loop condition is false and the
`if tries >= 10` branch raises the exhaustion error whatever the final
status is; with `fuel > 0` a 200 returns, a 401 raises immediately before
any sleep, and any other status sleeps `wait` seconds and retries.
`reqs` counts transport requests issued so far and `sleeps` accumulates the
sleep durations. -/
def getAux (wait : Nat) (t : Transport) :
    Nat → Response → Nat → List Nat → GetOutcome × LoopTrace
  | 0, resp, reqs, sleeps =>
    (.exhausted resp.status_code resp.content, ⟨reqs, sleeps⟩)
  | fuel + 1, resp, reqs, sleeps =>
    if resp.status_code ≠ 200 then
      if resp.status_code = 401 then
        (.authError resp.content, ⟨reqs, sleeps⟩)
      else
        getAux wait t fuel (t reqs) (reqs + 1) (sleeps ++ [wait])
    else
      (.success resp.content, ⟨reqs, sleeps⟩)

/-- `__get_request_timeout` (source lines 167-191): first request, then the
retry loop with `tries = 0`, that is `fuel = 10`. -/
def get_request_timeout (s : ClientState) (t : Transport) :
    GetOutcome × LoopTrace :=
  getAux s.wait t 10 (t 0) 1 []

/-- Result of `__put_request_timeout`: terminal status code on 200 or 201,
exhaustion error otherwise.  The PUT loop has no 401 branch. -/
inductive PutOutcome where
  | success (status : Nat)
  | exhausted (status : Nat) (body : JVal)

/-- True exactly for the `success` outcome. -/
def PutOutcome.isSuccess : PutOutcome → Bool
  | .success _ => true
  | _ => false

/-- Retry loop of `__put_request_timeout` (source lines 201-215), same
`fuel = 10 - tries` translation as `getAux`; the loop condition is
`(status != 200 and status != 201) and tries < 10` and there is no 401
special case. -/
def putAux (wait : Nat) (t : Transport) :
    Nat → Response → Nat → List Nat → PutOutcome × LoopTrace
  | 0, resp, reqs, sleeps =>
    (.exhausted resp.status_code resp.content, ⟨reqs, sleeps⟩)
  | fuel + 1, resp, reqs, sleeps =>
    if resp.status_code ≠ 200 ∧ resp.status_code ≠ 201 then
      putAux wait t fuel (t reqs) (reqs + 1) (sleeps ++ [wait])
    else
      (.success resp.status_code, ⟨reqs, sleeps⟩)

/-- Everything a PUT-path call produces: the loop outcome, its trace, the
JSON body sent with every attempt, and the client state afterwards. -/
structure PutRun where
  outcome : PutOutcome
  trace : LoopTrace
  body : JVal
  state : ClientState

/-- `__put_request_timeout` (source lines 193-215): sets `self.wait = 60`
(line 196) before the first request, so the loop always sleeps 60 seconds
between attempts and the mutated state is returned. -/
def put_request_timeout (s : ClientState) (data : JVal) (t : Transport) :
    PutRun :=
  let s2 : ClientState := { s with wait := 60 }
  let r := putAux s2.wait t 10 (t 0) 1 []
  ⟨r.1, r.2, data, s2⟩

/-- Result of `download_file`: the raw content (decoded as text or kept as
bytes according to the `decode` flag) on 200, otherwise the same two
`RedmineConnectionError` cases as the GET path. -/
inductive DownloadOutcome where
  | success (decoded : Bool) (content : JVal)
  | authError (body : JVal)
  | exhausted (status : Nat) (body : JVal)

/-- True exactly for the `authError` outcome. -/
def DownloadOutcome.isAuthError : DownloadOutcome → Bool
  | .authError _ => true
  | _ => false

/-- Retry loop of `download_file` (source lines 127-143), textually the
same loop as `getAux` including the 401 branch at lines 130-133. -/
def downloadAux (wait : Nat) (t : Transport) (decode : Bool) :
    Nat → Response → Nat → List Nat → DownloadOutcome × LoopTrace
  | 0, resp, reqs, sleeps =>
    (.exhausted resp.status_code resp.content, ⟨reqs, sleeps⟩)
  | fuel + 1, resp, reqs, sleeps =>
    if resp.status_code ≠ 200 then
      if resp.status_code = 401 then
        (.authError resp.content, ⟨reqs, sleeps⟩)
      else
        downloadAux wait t decode fuel (t reqs) (reqs + 1) (sleeps ++ [wait])
    else
      (.success decode resp.content, ⟨reqs, sleeps⟩)

/-- `download_file(content_url, decode=True)` (source lines 117-148); the
content URL is absorbed into the transport abstraction.  The client state
is returned unchanged: this method never writes to `self`. -/
def download_file (s : ClientState) (decode : Bool) (t : Transport) :
    DownloadOutcome × LoopTrace × ClientState :=
  let r := downloadAux s.wait t decode 10 (t 0) 1 []
  (r.1, r.2, s)

/-- `get_new_issues(project, num_issues)` (source lines 73-84): builds a
project-scoped URL and delegates to the GET loop. -/
def get_new_issues (s : ClientState) (project : String) (num_issues : Nat)
    (t : Transport) : GetOutcome × LoopTrace × ClientState :=
  let r := get_request_timeout s t
  (r.1, r.2, s)

/-- `get_issue_data(issue_id)` (source lines 86-92): builds the issue URL
and delegates to the GET loop. -/
def get_issue_data (s : ClientState) (issue_id : Int) (t : Transport) :
    GetOutcome × LoopTrace × ClientState :=
  let r := get_request_timeout s t
  (r.1, r.2, s)

/-- Fields of the `data["issue"]` dict built by `update_issue` (source
lines 102-113), in insertion order: `status_id` first when supplied, then
`assigned_to_id` (stringified by `str(assign_to_id)`), then `notes`. -/
def update_issue_fields (notes : Option String) (status_change : Option Int)
    (assign_to_id : Option Int) : List (String × JVal) :=
  (match status_change with
    | some sc => [("status_id", JVal.num sc)]
    | none => []) ++
  (match assign_to_id with
    | some a => [("assigned_to_id", JVal.str (toString a))]
    | none => []) ++
  (match notes with
    | some n => [("notes", JVal.str n)]
    | none => [])

/-- The full PUT body built by `update_issue`. -/
def update_issue_body (notes : Option String) (status_change : Option Int)
    (assign_to_id : Option Int) : JVal :=
  JVal.obj [("issue", JVal.obj (update_issue_fields notes status_change assign_to_id))]

/-- `update_issue(issue_id, notes=None, status_change=None,
assign_to_id=None)` (source lines 94-115). -/
def update_issue (s : ClientState) (issue_id : Int) (notes : Option String)
    (status_change : Option Int) (assign_to_id : Option Int)
    (t : Transport) : PutRun :=
  put_request_timeout s (update_issue_body notes status_change assign_to_id) t

/-- Tail component of `os.path.split(filepath)` (source line 45): the part
of the path after the last slash, or the whole path when it has no slash. -/
def splitTail (p : String) : String :=
  ⟨(p.toList.reverse.takeWhile (fun c => !(c == '/'))).reverse⟩

/-- Token extraction from the staging response body:
`json.loads(resp.content)["upload"]["token"]` (source line 50); `none`
models the KeyError / TypeError path when the body lacks that shape. -/
def extractToken (body : JVal) : Option JVal :=
  (body.lookupKey "upload").bind (fun u => u.lookupKey "token")

/-- The attach PUT body built by `upload_file` (source lines 56-69), in
insertion order: the single-element `uploads` list, then `notes`, then
`status_id` when a status change is supplied. -/
def upload_attach_body (token : JVal) (filename content_type notes : String)
    (status_change : Option Int) : JVal :=
  JVal.obj [("issue", JVal.obj (
    [("uploads", JVal.arr [JVal.obj
        [("token", token),
         ("filename", JVal.str filename),
         ("content_type", JVal.str content_type)]]),
     ("notes", JVal.str notes)] ++
    (match status_change with
      | some sc => [("status_id", JVal.num sc)]
      | none => [])))]

/-- Outcome of `upload_file`: a non-201 staging status raises
`RedmineUploadError` with status and body; a 201 body without
`upload.token` raises a KeyError; otherwise the attach PUT runs. -/
inductive UploadOutcome where
  | stagingFailed (status : Nat) (body : JVal)
  | tokenMissing (body : JVal)
  | attached (put : PutOutcome)

/-- Everything an `upload_file` call produces: outcome, number of staging
POST requests, number of attach PUT requests with their sleeps and body,
and the client state afterwards. -/
structure UploadRun where
  outcome : UploadOutcome
  postRequests : Nat
  putRequests : Nat
  putSleeps : List Nat
  putBody : Option JVal
  state : ClientState

/-- `upload_file(filepath, issue_id, content_type,
file_name_once_uploaded="", additional_notes="", status_change=None)`
(source lines 26-71).  The staging POST (line 47) is issued exactly once
and is not retried; only on status 201 is the attach PUT submitted through
`__put_request_timeout`. -/
def upload_file (s : ClientState) (filepath : String) (issue_id : Int)
    (content_type : String) (file_name_once_uploaded : String)
    (additional_notes : String) (status_change : Option Int)
    (postT : Transport) (putT : Transport) : UploadRun :=
  let fname := if file_name_once_uploaded = "" then splitTail filepath
               else file_name_once_uploaded
  let resp := postT 0
  if resp.status_code = 201 then
    match extractToken resp.content with
    | some token =>
      let data := upload_attach_body token fname content_type
        additional_notes status_change
      let run := put_request_timeout s data putT
      ⟨.attached run.outcome, 1, run.trace.requests, run.trace.sleeps,
        some data, run.state⟩
    | none => ⟨.tokenMissing resp.content, 1, 0, [], none, s⟩
  else
    ⟨.stagingFailed resp.status_code resp.content, 1, 0, [], none, s⟩

/-- Extraction `doc["issue"]["author"]["id"]` used by `assign_to_author`
(source line 157); the remote schema gives integer author ids. -/
def authorId (doc : JVal) : Option JVal :=
  ((doc.lookupKey "issue").bind (fun i => i.lookupKey "author")).bind
    (fun a => a.lookupKey "id")

/-- Outcome of `assign_to_author`: the fetch can raise either GET error,
a document without an integer `issue.author.id` raises a KeyError, and
otherwise `update_issue` runs. -/
inductive AssignOutcome where
  | fetchFailed (g : GetOutcome)
  | badDocument (doc : JVal)
  | updated (put : PutOutcome)

/-- Everything an `assign_to_author` call produces. -/
structure AssignRun where
  outcome : AssignOutcome
  getTrace : LoopTrace
  putRequests : Nat
  putSleeps : List Nat
  putBody : Option JVal
  state : ClientState

/-- `assign_to_author(issue_id, notes=None, status_change=None)` (source
lines 150-157): fetch the issue, read the author id, then `update_issue`
with `assign_to_id` set to it.  A failed fetch aborts before any PUT. -/
def assign_to_author (s : ClientState) (issue_id : Int)
    (notes : Option String) (status_change : Option Int)
    (getT : Transport) (putT : Transport) : AssignRun :=
  match get_request_timeout s getT with
  | (.success doc, gtr) =>
    match authorId doc with
    | some (.num aid) =>
      let run := update_issue s issue_id notes status_change (some aid) putT
      ⟨.updated run.outcome, gtr, run.trace.requests, run.trace.sleeps,
        some run.body, run.state⟩
    | _ => ⟨.badDocument doc, gtr, 0, [], none, s⟩
  | (g, gtr) => ⟨.fetchFailed g, gtr, 0, [], none, s⟩

/-- Characters allowed in a URL scheme by `urllib.parse`. -/
def schemeChar (c : Char) : Bool :=
  c.isAlpha || c.isDigit || c == '+' || c == '-' || c == '.'

/-- Splits a character list at the first colon, when there is one. -/
def splitAtColon : List Char → Option (List Char × List Char)
  | [] => none
  | c :: cs =>
    if c = ':' then some ([], cs)
    else match splitAtColon cs with
      | some (a, b) => some (c :: a, b)
      | none => none

/-- Network-location part: after a leading double slash, up to the first
slash, question mark or hash; empty when there is no double slash. -/
def netlocOf (cs : List Char) : List Char :=
  match cs with
  | '/' :: '/' :: rest =>
    rest.takeWhile (fun c => !(c == '/' || c == '?' || c == '#'))
  | _ => []

/-- Scheme and netloc of a parsed URL. -/
structure ParseResult where
  scheme : String
  netloc : String

/-- Model of `urllib.parse.urlparse` restricted to the `scheme` and
`netloc` components, the only ones `__url_validator` reads: a scheme is a
nonempty prefix of scheme characters starting with a letter and followed
by a colon; the netloc follows a double slash. -/
def urlparse (url : String) : ParseResult :=
  let cs := url.toList
  match splitAtColon cs with
  | some (before, after) =>
    if !before.isEmpty && (before.headD ' ').isAlpha && before.all schemeChar
    then ⟨⟨before.map Char.toLower⟩, ⟨netlocOf after⟩⟩
    else ⟨"", ⟨netlocOf cs⟩⟩
  | none => ⟨"", ⟨netlocOf cs⟩⟩

/-- `__url_validator` (source lines 159-165): true exactly when both the
scheme and the netloc of the parsed URL are nonempty, via the truthiness
test `all([token.scheme, token.netloc])`. -/
def url_validator (url : String) : Bool :=
  let token := urlparse url
  (token.scheme != "") && (token.netloc != "")

/-- `__init__(url, api_key, wait_between_retry_attempts=60)` (source lines
7-24): validates the URL synchronously, before any network activity (the
constructor performs no request), and on success stores the URL, the wait
and the API key unchanged; otherwise raises
`RedmineConnectionError("Invalid URL")`. -/
def init (url : String) (api_key : String)
    (wait_between_retry_attempts : Nat) : Except String ClientState :=
  if url_validator url then
    .ok ⟨url, api_key, wait_between_retry_attempts⟩
  else
    .error "Invalid URL"

/-- A transport whose every response is a 500. -/
def always500 : Transport := fun _ => ⟨500, .str "Internal Server Error"⟩

/-- A transport whose every response is a 401. -/
def always401 : Transport := fun _ => ⟨401, .str "Invalid credentials"⟩

/-- Ten 500 responses followed by 200 responses. -/
def failThen200 : Transport :=
  fun i => if i < 10 then ⟨500, .str "err"⟩ else ⟨200, .str "ok"⟩

/-- Ten 500 responses followed by 401 responses. -/
def failThen401 : Transport :=
  fun i => if i < 10 then ⟨500, .str "err"⟩ else ⟨401, .str "unauthorized"⟩

/-- One 401 response followed by 201 responses. -/
def unauthThen201 : Transport :=
  fun i => if i = 0 then ⟨401, .str "unauthorized"⟩ else ⟨201, .str "created"⟩

/-- A staging transport answering 422. -/
def post422 : Transport := fun _ => ⟨422, .str "Unprocessable Entity"⟩

/-- A staging transport answering 201 with token abc123. -/
def post201 : Transport :=
  fun _ => ⟨201, .obj [("upload", .obj [("token", .str "abc123")])]⟩

/-- A concrete client state with a configured wait of 5 seconds. -/
def s0 : ClientState := ⟨"http://redmine.example.com/", "key", 5⟩

/-- Unfolding equation for `put_request_timeout`. -/
lemma put_request_timeout_eq (s : ClientState) (data : JVal) (t : Transport) :
    put_request_timeout s data t =
      ⟨(putAux 60 t 10 (t 0) 1 []).1, (putAux 60 t 10 (t 0) 1 []).2,
        data, { s with wait := 60 }⟩ := rfl

/-- When every response consumed inside the GET loop fails its checks, the
loop runs its budget down and raises the exhaustion error built from the
final response, which is requested but never examined. -/
lemma getAux_exhaust (w : Nat) (t : Transport) :
    ∀ (fuel reqs : Nat) (sleeps : List Nat),
      (∀ i, i < fuel →
        (t (reqs + i)).status_code ≠ 200 ∧ (t (reqs + i)).status_code ≠ 401) →
      getAux w t fuel (t reqs) (reqs + 1) sleeps =
        (.exhausted (t (reqs + fuel)).status_code (t (reqs + fuel)).content,
         ⟨reqs + 1 + fuel, sleeps ++ List.replicate fuel w⟩) := by
  intro fuel
  induction fuel with
  | zero =>
    intro reqs sleeps _
    simp [getAux]
  | succ n ih =>
    intro reqs sleeps h
    have h0 := h 0 (Nat.succ_pos n)
    rw [Nat.add_zero] at h0
    simp only [getAux]
    rw [if_pos h0.1, if_neg h0.2]
    have hshift : ∀ i, i < n →
        (t (reqs + 1 + i)).status_code ≠ 200 ∧
        (t (reqs + 1 + i)).status_code ≠ 401 := by
      intro i hi
      have e : reqs + 1 + i = reqs + (i + 1) := by omega
      rw [e]
      exact h (i + 1) (by omega)
    rw [ih (reqs + 1) (sleeps ++ [w]) hshift]
    have e1 : reqs + 1 + n = reqs + (n + 1) := by omega
    have e2 : reqs + 1 + 1 + n = reqs + 1 + (n + 1) := by omega
    rw [e1, e2]
    simp [List.replicate_succ]

/-- When the first response with status 200 or 401 is a 401 and arrives
while the loop still has budget, the GET loop raises the invalid-api-key
error at once: no sleep follows it and no further request is issued. -/
lemma getAux_auth (w : Nat) (t : Transport) :
    ∀ (fuel i reqs : Nat) (sleeps : List Nat), i < fuel →
      (∀ j, j < i →
        (t (reqs + j)).status_code ≠ 200 ∧ (t (reqs + j)).status_code ≠ 401) →
      (t (reqs + i)).status_code = 401 →
      getAux w t fuel (t reqs) (reqs + 1) sleeps =
        (.authError (t (reqs + i)).content,
         ⟨reqs + 1 + i, sleeps ++ List.replicate i w⟩) := by
  intro fuel
  induction fuel with
  | zero =>
    intro i reqs sleeps hi _ _
    exact absurd hi (Nat.not_lt_zero i)
  | succ n ih =>
    intro i reqs sleeps hi hpre h401
    cases i with
    | zero =>
      rw [Nat.add_zero] at h401
      have hne : (t reqs).status_code ≠ 200 := by rw [h401]; omega
      simp only [getAux]
      rw [if_pos hne, if_pos h401, Nat.add_zero]
      simp
    | succ j =>
      have h0 := hpre 0 (Nat.succ_pos j)
      rw [Nat.add_zero] at h0
      simp only [getAux]
      rw [if_pos h0.1, if_neg h0.2]
      have hshift : ∀ k, k < j →
          (t (reqs + 1 + k)).status_code ≠ 200 ∧
          (t (reqs + 1 + k)).status_code ≠ 401 := by
        intro k hk
        have e : reqs + 1 + k = reqs + (k + 1) := by omega
        rw [e]
        exact hpre (k + 1) (by omega)
      have h401s : (t (reqs + 1 + j)).status_code = 401 := by
        have e : reqs + 1 + j = reqs + (j + 1) := by omega
        rw [e]
        exact h401
      rw [ih j (reqs + 1) (sleeps ++ [w]) (by omega) hshift h401s]
      have e1 : reqs + 1 + j = reqs + (j + 1) := by omega
      have e2 : reqs + 1 + 1 + j = reqs + 1 + (j + 1) := by omega
      rw [e1, e2]
      simp [List.replicate_succ]

/-- Every sleep recorded by the GET loop lasts `w` seconds. -/
lemma getAux_sleeps (w : Nat) (t : Transport) :
    ∀ (fuel : Nat) (resp : Response) (reqs : Nat) (sleeps : List Nat),
      (∀ x ∈ sleeps, x = w) →
      ∀ x ∈ (getAux w t fuel resp reqs sleeps).2.sleeps, x = w := by
  intro fuel
  induction fuel with
  | zero =>
    intro resp reqs sleeps h
    simpa [getAux] using h
  | succ n ih =>
    intro resp reqs sleeps h
    simp only [getAux]
    split
    · split
      · simpa using h
      · refine ih (t reqs) (reqs + 1) (sleeps ++ [w]) ?_
        intro x hx
        rcases List.mem_append.mp hx with h1 | h1
        · exact h x h1
        · simpa using h1
    · simpa using h

/-- When every response consumed inside the PUT loop fails its checks, the
loop runs its budget down and raises the exhaustion error built from the
final response, which is requested but never examined. -/
lemma putAux_exhaust (w : Nat) (t : Transport) :
    ∀ (fuel reqs : Nat) (sleeps : List Nat),
      (∀ i, i < fuel →
        (t (reqs + i)).status_code ≠ 200 ∧ (t (reqs + i)).status_code ≠ 201) →
      putAux w t fuel (t reqs) (reqs + 1) sleeps =
        (.exhausted (t (reqs + fuel)).status_code (t (reqs + fuel)).content,
         ⟨reqs + 1 + fuel, sleeps ++ List.replicate fuel w⟩) := by
  intro fuel
  induction fuel with
  | zero =>
    intro reqs sleeps _
    simp [putAux]
  | succ n ih =>
    intro reqs sleeps h
    have h0 := h 0 (Nat.succ_pos n)
    rw [Nat.add_zero] at h0
    simp only [putAux]
    rw [if_pos h0]
    have hshift : ∀ i, i < n →
        (t (reqs + 1 + i)).status_code ≠ 200 ∧
        (t (reqs + 1 + i)).status_code ≠ 201 := by
      intro i hi
      have e : reqs + 1 + i = reqs + (i + 1) := by omega
      rw [e]
      exact h (i + 1) (by omega)
    rw [ih (reqs + 1) (sleeps ++ [w]) hshift]
    have e1 : reqs + 1 + n = reqs + (n + 1) := by omega
    have e2 : reqs + 1 + 1 + n = reqs + 1 + (n + 1) := by omega
    rw [e1, e2]
    simp [List.replicate_succ]

/-- When the first response with status 200 or 201 arrives while the PUT
loop still has budget, the loop stops there and returns that status. -/
lemma putAux_success (w : Nat) (t : Transport) :
    ∀ (fuel i reqs : Nat) (sleeps : List Nat), i < fuel →
      (∀ j, j < i →
        (t (reqs + j)).status_code ≠ 200 ∧ (t (reqs + j)).status_code ≠ 201) →
      ((t (reqs + i)).status_code = 200 ∨ (t (reqs + i)).status_code = 201) →
      putAux w t fuel (t reqs) (reqs + 1) sleeps =
        (.success (t (reqs + i)).status_code,
         ⟨reqs + 1 + i, sleeps ++ List.replicate i w⟩) := by
  intro fuel
  induction fuel with
  | zero =>
    intro i reqs sleeps hi _ _
    exact absurd hi (Nat.not_lt_zero i)
  | succ n ih =>
    intro i reqs sleeps hi hpre hs
    cases i with
    | zero =>
      rw [Nat.add_zero] at hs
      have hcond : ¬((t reqs).status_code ≠ 200 ∧ (t reqs).status_code ≠ 201) := by
        rcases hs with h | h
        · exact fun hc => hc.1 h
        · exact fun hc => hc.2 h
      simp only [putAux]
      rw [if_neg hcond, Nat.add_zero]
      simp
    | succ j =>
      have h0 := hpre 0 (Nat.succ_pos j)
      rw [Nat.add_zero] at h0
      simp only [putAux]
      rw [if_pos h0]
      have hshift : ∀ k, k < j →
          (t (reqs + 1 + k)).status_code ≠ 200 ∧
          (t (reqs + 1 + k)).status_code ≠ 201 := by
        intro k hk
        have e : reqs + 1 + k = reqs + (k + 1) := by omega
        rw [e]
        exact hpre (k + 1) (by omega)
      have hss : (t (reqs + 1 + j)).status_code = 200 ∨
          (t (reqs + 1 + j)).status_code = 201 := by
        have e : reqs + 1 + j = reqs + (j + 1) := by omega
        rw [e]
        exact hs
      rw [ih j (reqs + 1) (sleeps ++ [w]) (by omega) hshift hss]
      have e1 : reqs + 1 + j = reqs + (j + 1) := by omega
      have e2 : reqs + 1 + 1 + j = reqs + 1 + (j + 1) := by omega
      rw [e1, e2]
      simp [List.replicate_succ]

/-- Every sleep recorded by the PUT loop lasts `w` seconds. -/
lemma putAux_sleeps (w : Nat) (t : Transport) :
    ∀ (fuel : Nat) (resp : Response) (reqs : Nat) (sleeps : List Nat),
      (∀ x ∈ sleeps, x = w) →
      ∀ x ∈ (putAux w t fuel resp reqs sleeps).2.sleeps, x = w := by
  intro fuel
  induction fuel with
  | zero =>
    intro resp reqs sleeps h
    simpa [putAux] using h
  | succ n ih =>
    intro resp reqs sleeps h
    simp only [putAux]
    split
    · refine ih (t reqs) (reqs + 1) (sleeps ++ [w]) ?_
      intro x hx
      rcases List.mem_append.mp hx with h1 | h1
      · exact h x h1
      · simpa using h1
    · simpa using h

/-- When the first response with status 200 or 401 is a 401 and arrives
while the download loop still has budget, the loop raises the
invalid-api-key error at once, exactly like the GET loop. -/
lemma downloadAux_auth (w : Nat) (t : Transport) (dec : Bool) :
    ∀ (fuel i reqs : Nat) (sleeps : List Nat), i < fuel →
      (∀ j, j < i →
        (t (reqs + j)).status_code ≠ 200 ∧ (t (reqs + j)).status_code ≠ 401) →
      (t (reqs + i)).status_code = 401 →
      downloadAux w t dec fuel (t reqs) (reqs + 1) sleeps =
        (.authError (t (reqs + i)).content,
         ⟨reqs + 1 + i, sleeps ++ List.replicate i w⟩) := by
  intro fuel
  induction fuel with
  | zero =>
    intro i reqs sleeps hi _ _
    exact absurd hi (Nat.not_lt_zero i)
  | succ n ih =>
    intro i reqs sleeps hi hpre h401
    cases i with
    | zero =>
      rw [Nat.add_zero] at h401
      have hne : (t reqs).status_code ≠ 200 := by rw [h401]; omega
      simp only [downloadAux]
      rw [if_pos hne, if_pos h401, Nat.add_zero]
      simp
    | succ j =>
      have h0 := hpre 0 (Nat.succ_pos j)
      rw [Nat.add_zero] at h0
      simp only [downloadAux]
      rw [if_pos h0.1, if_neg h0.2]
      have hshift : ∀ k, k < j →
          (t (reqs + 1 + k)).status_code ≠ 200 ∧
          (t (reqs + 1 + k)).status_code ≠ 401 := by
        intro k hk
        have e : reqs + 1 + k = reqs + (k + 1) := by omega
        rw [e]
        exact hpre (k + 1) (by omega)
      have h401s : (t (reqs + 1 + j)).status_code = 401 := by
        have e : reqs + 1 + j = reqs + (j + 1) := by omega
        rw [e]
        exact h401
      rw [ih j (reqs + 1) (sleeps ++ [w]) (by omega) hshift h401s]
      have e1 : reqs + 1 + j = reqs + (j + 1) := by omega
      have e2 : reqs + 1 + 1 + j = reqs + 1 + (j + 1) := by omega
      rw [e1, e2]
      simp [List.replicate_succ]

/-- Unfolding equation for `upload_file` when the staging POST does not
answer 201. -/
lemma upload_file_fail_eq (s : ClientState) (filepath : String)
    (issue_id : Int) (content_type fnou notes : String) (sc : Option Int)
    (postT putT : Transport) (h : (postT 0).status_code ≠ 201) :
    upload_file s filepath issue_id content_type fnou notes sc postT putT =
      ⟨.stagingFailed (postT 0).status_code (postT 0).content,
        1, 0, [], none, s⟩ := by
  simp only [upload_file]
  rw [if_neg h]

/-- Unfolding equation for `upload_file` when the staging POST answers 201
but the body carries no `upload.token`. -/
lemma upload_file_missing_eq (s : ClientState) (filepath : String)
    (issue_id : Int) (content_type fnou notes : String) (sc : Option Int)
    (postT putT : Transport) (h201 : (postT 0).status_code = 201)
    (htok : extractToken (postT 0).content = none) :
    upload_file s filepath issue_id content_type fnou notes sc postT putT =
      ⟨.tokenMissing (postT 0).content, 1, 0, [], none, s⟩ := by
  simp only [upload_file]
  rw [if_pos h201, htok]

/-- Unfolding equation for `upload_file` when the staging POST answers 201
with a token: the attach PUT runs with the built body. -/
lemma upload_file_attached_eq (s : ClientState) (filepath : String)
    (issue_id : Int) (content_type fnou notes : String) (sc : Option Int)
    (postT putT : Transport) (tok : JVal)
    (h201 : (postT 0).status_code = 201)
    (htok : extractToken (postT 0).content = some tok) :
    upload_file s filepath issue_id content_type fnou notes sc postT putT =
      ⟨.attached (put_request_timeout s (upload_attach_body tok
          (if fnou = "" then splitTail filepath else fnou)
          content_type notes sc) putT).outcome,
        1,
        (put_request_timeout s (upload_attach_body tok
          (if fnou = "" then splitTail filepath else fnou)
          content_type notes sc) putT).trace.requests,
        (put_request_timeout s (upload_attach_body tok
          (if fnou = "" then splitTail filepath else fnou)
          content_type notes sc) putT).trace.sleeps,
        some (upload_attach_body tok
          (if fnou = "" then splitTail filepath else fnou)
          content_type notes sc),
        (put_request_timeout s (upload_attach_body tok
          (if fnou = "" then splitTail filepath else fnou)
          content_type notes sc) putT).state⟩ := by
  simp only [upload_file]
  rw [if_pos h201, htok]

/-- C1 counterexample: against a transport answering 500 forever, both the
GET loop and the PUT loop issue 11 transport requests, so the claimed
bound of at most 10 attempts total is false on the code. -/
theorem C1_counterexample :
    (get_request_timeout s0 always500).2.requests = 11 ∧
    ¬((get_request_timeout s0 always500).2.requests ≤ 10) ∧
    (put_request_timeout s0 JVal.null always500).trace.requests = 11 ∧
    ¬((put_request_timeout s0 JVal.null always500).trace.requests ≤ 10) := by
  decide

/-- C1 (amended): for every GET whose responses are never 200 and never
401, and every PUT whose responses are never 200 and never 201, the loop
makes exactly 11 attempts (the original plus 10 retries) and then fails
with the exhaustion RedmineConnectionError carrying the status code and
body of the last (11th) response. -/
theorem C1_amended_retry_budget (s : ClientState) (data : JVal)
    (tg tp : Transport)
    (hg : ∀ i, (tg i).status_code ≠ 200 ∧ (tg i).status_code ≠ 401)
    (hp : ∀ i, (tp i).status_code ≠ 200 ∧ (tp i).status_code ≠ 201) :
    get_request_timeout s tg =
      (.exhausted (tg 10).status_code (tg 10).content,
       ⟨11, List.replicate 10 s.wait⟩) ∧
    (put_request_timeout s data tp).outcome =
      .exhausted (tp 10).status_code (tp 10).content ∧
    (put_request_timeout s data tp).trace = ⟨11, List.replicate 10 60⟩ := by
  have hG := getAux_exhaust s.wait tg 10 0 [] (fun i _ => by simpa using hg i)
  have hP := putAux_exhaust 60 tp 10 0 [] (fun i _ => by simpa using hp i)
  refine ⟨hG, ?_, ?_⟩
  · rw [put_request_timeout_eq, hP]
  · rw [put_request_timeout_eq, hP]
    rfl

/-- C1 witness: the amended theorem evaluated on the always-500 transport
from the counterexample. -/
theorem C1_amended_witness :
    get_request_timeout s0 always500 =
      (.exhausted 500 (.str "Internal Server Error"),
       ⟨11, List.replicate 10 5⟩) ∧
    (put_request_timeout s0 JVal.null always500).outcome =
      .exhausted 500 (.str "Internal Server Error") := by
  have h := C1_amended_retry_budget s0 JVal.null always500 always500
    (fun i => ⟨(by decide : (500 : Nat) ≠ 200), (by decide : (500 : Nat) ≠ 401)⟩)
    (fun i => ⟨(by decide : (500 : Nat) ≠ 200), (by decide : (500 : Nat) ≠ 201)⟩)
  exact ⟨h.1, h.2.1⟩

/-- C2 counterexample: when the first 10 responses are 500 and the 11th is
a 401, a 401 response is received by the GET loop yet the run ends in the
exhaustion error, not the authentication error, so the claim is false for
that received response. -/
theorem C2_counterexample :
    (failThen401 10).status_code = 401 ∧
    (get_request_timeout s0 failThen401).2.requests = 11 ∧
    (get_request_timeout s0 failThen401).1 =
      .exhausted 401 (.str "unauthorized") ∧
    ((get_request_timeout s0 failThen401).1).isAuthError = false :=
  ⟨rfl, rfl, rfl, rfl⟩

/-- C2 (amended): if the first response with status 200 or 401 is a 401
and it arrives as one of the first 10 responses (retry counter below 10),
the GET loop raises the authentication RedmineConnectionError at once,
with no sleep after it and no further transport request; in particular a
401 first response means exactly one transport invocation. -/
theorem C2_amended_auth_no_retry (s : ClientState) (t : Transport)
    (i : Nat) (hi : i < 10)
    (hpre : ∀ j, j < i →
      (t j).status_code ≠ 200 ∧ (t j).status_code ≠ 401)
    (h401 : (t i).status_code = 401) :
    get_request_timeout s t =
      (.authError (t i).content, ⟨i + 1, List.replicate i s.wait⟩) := by
  have h := getAux_auth s.wait t 10 i 0 [] hi
    (fun j hj => by simpa using hpre j hj) (by simpa using h401)
  simp only [Nat.zero_add, List.nil_append] at h
  rw [Nat.add_comm 1 i] at h
  exact h

/-- C2 witness: a 401 on the first response fails immediately, with the
transport invoked exactly once and no sleep. -/
theorem C2_amended_witness :
    get_request_timeout s0 always401 =
      (.authError (.str "Invalid credentials"), ⟨1, []⟩) :=
  C2_amended_auth_no_retry s0 always401 0 (by decide)
    (fun j hj => absurd hj (Nat.not_lt_zero j)) rfl

/-- C3 counterexample: `download_file` on a transport answering 401 first
raises the authentication error immediately after a single request, so a
401 is not treated like other non-200 statuses and is not retried. -/
theorem C3_counterexample :
    ((download_file s0 true always401).1).isAuthError = true ∧
    (download_file s0 true always401).2.1.requests = 1 ∧
    (download_file s0 true always401).1 =
      .authError (.str "Invalid credentials") :=
  ⟨rfl, rfl, rfl⟩

/-- C3 (amended): `download_file` uses the same retry semantics as the
generic GET path including its 401 special case: a 401 arriving as one of
the first 10 responses, before any 200, raises the authentication
RedmineConnectionError at once instead of being retried. -/
theorem C3_amended_download_auth (s : ClientState) (dec : Bool)
    (t : Transport) (i : Nat) (hi : i < 10)
    (hpre : ∀ j, j < i →
      (t j).status_code ≠ 200 ∧ (t j).status_code ≠ 401)
    (h401 : (t i).status_code = 401) :
    download_file s dec t =
      (.authError (t i).content, ⟨i + 1, List.replicate i s.wait⟩, s) := by
  have h := downloadAux_auth s.wait t dec 10 i 0 [] hi
    (fun j hj => by simpa using hpre j hj) (by simpa using h401)
  simp only [Nat.zero_add, List.nil_append] at h
  rw [Nat.add_comm 1 i] at h
  simp only [download_file]
  rw [h]

/-- C3 witness: the amended theorem evaluated on the always-401 transport. -/
theorem C3_amended_witness :
    download_file s0 false always401 =
      (.authError (.str "Invalid credentials"), ⟨1, []⟩, s0) :=
  C3_amended_download_auth s0 false always401 0 (by decide)
    (fun j hj => absurd hj (Nat.not_lt_zero j)) rfl

/-- C4 counterexample: when the first 10 responses are 500 and the 11th is
a 200, a response with a success status is received by the PUT loop yet
the run raises the exhaustion error instead of returning the status, so
the claimed equivalence is false on the code. -/
theorem C4_counterexample :
    (failThen200 10).status_code = 200 ∧
    (put_request_timeout s0 JVal.null failThen200).trace.requests = 11 ∧
    ((put_request_timeout s0 JVal.null failThen200).outcome).isSuccess
      = false ∧
    (put_request_timeout s0 JVal.null failThen200).outcome =
      .exhausted 200 (.str "ok") :=
  ⟨rfl, rfl, rfl, rfl⟩

/-- C4 (amended): the PUT loop returns the terminal status code exactly
when one of the first 10 responses has status 200 or 201 (it stops at the
first such; earlier failures, a 401 included, are simply retried); if none
of the first 10 responses succeeds it raises the exhaustion error built
from the 11th response, whatever its status. -/
theorem C4_amended_put_success_condition (s : ClientState) (data : JVal)
    (t : Transport) :
    (∀ i, i < 10 →
      (∀ j, j < i → (t j).status_code ≠ 200 ∧ (t j).status_code ≠ 201) →
      ((t i).status_code = 200 ∨ (t i).status_code = 201) →
      (put_request_timeout s data t).outcome = .success (t i).status_code ∧
      (put_request_timeout s data t).trace.requests = i + 1) ∧
    ((∀ i, i < 10 →
      (t i).status_code ≠ 200 ∧ (t i).status_code ≠ 201) →
      (put_request_timeout s data t).outcome =
        .exhausted (t 10).status_code (t 10).content ∧
      (put_request_timeout s data t).trace.requests = 11) := by
  constructor
  · intro i hi hpre hs
    have h := putAux_success 60 t 10 i 0 [] hi
      (fun j hj => by simpa using hpre j hj) (by simpa using hs)
    simp only [Nat.zero_add, List.nil_append] at h
    rw [put_request_timeout_eq, h]
    exact ⟨rfl, by simp [Nat.add_comm]⟩
  · intro hfail
    have h := putAux_exhaust 60 t 10 0 []
      (fun i hi => by simpa using hfail i (by simpa using hi))
    simp only [Nat.zero_add, List.nil_append] at h
    rw [put_request_timeout_eq, h]
    exact ⟨rfl, rfl⟩

/-- C4 witness: a first response of 401 is retried like any failure, and
the 201 answered on the second attempt terminates the loop with status
201 after exactly two transport invocations. -/
theorem C4_amended_witness :
    (put_request_timeout s0 JVal.null unauthThen201).outcome =
      .success 201 ∧
    (put_request_timeout s0 JVal.null unauthThen201).trace.requests = 2 := by
  have h := (C4_amended_put_success_condition s0 JVal.null unauthThen201).1
    1 (by decide)
    (fun j hj => by
      have hj0 : j = 0 := by omega
      subst hj0
      exact ⟨by decide, by decide⟩)
    (Or.inr (by decide))
  exact h

/-- C5: the PUT body built by `update_issue` contains exactly the fields
among notes, status id and assignee that were supplied, with the assignee
id stringified; the notes-only call produces exactly the notes-only body. -/
theorem C5_partial_patch (s : ClientState) (issue_id : Int)
    (notes : Option String) (sc aid : Option Int) (t : Transport) :
    (update_issue s issue_id notes sc aid t).body
      = JVal.obj [("issue", JVal.obj (update_issue_fields notes sc aid))] ∧
    (update_issue_fields notes sc aid).lookup "notes"
      = notes.map JVal.str ∧
    (update_issue_fields notes sc aid).lookup "status_id"
      = sc.map JVal.num ∧
    (update_issue_fields notes sc aid).lookup "assigned_to_id"
      = aid.map (fun a => JVal.str (toString a)) ∧
    ((update_issue_fields notes sc aid).all
      (fun kv => kv.1 == "notes" || kv.1 == "status_id"
        || kv.1 == "assigned_to_id")) = true ∧
    update_issue_body (some "done") none none
      = JVal.obj [("issue", JVal.obj [("notes", JVal.str "done")])] := by
  refine ⟨rfl, ?_, ?_, ?_, ?_, rfl⟩ <;>
    rcases notes with _ | n <;> rcases sc with _ | c <;>
    rcases aid with _ | a <;> rfl

/-- C6: when the staging POST answers anything but 201, `upload_file`
raises RedmineUploadError carrying the status and body, the POST was
issued exactly once, and no attach PUT request is ever made. -/
theorem C6_staging_not_retried (s : ClientState) (filepath : String)
    (issue_id : Int) (content_type fnou notes : String) (sc : Option Int)
    (postT putT : Transport) (h : (postT 0).status_code ≠ 201) :
    upload_file s filepath issue_id content_type fnou notes sc postT putT =
      ⟨.stagingFailed (postT 0).status_code (postT 0).content,
        1, 0, [], none, s⟩ :=
  upload_file_fail_eq s filepath issue_id content_type fnou notes sc
    postT putT h

/-- C6 witness: a staging POST answering 422 fails with the upload error
and issues no attach PUT. -/
theorem C6_witness :
    upload_file s0 "/tmp/report.pdf" 42 "application/pdf" "" "" none
        post422 always500 =
      ⟨.stagingFailed 422 (.str "Unprocessable Entity"),
        1, 0, [], none, s0⟩ :=
  C6_staging_not_retried s0 "/tmp/report.pdf" 42 "application/pdf" "" ""
    none post422 always500 (by decide)

/-- C7: when the staging POST answers 201 with token `tok` and no remote
filename is supplied, the attach PUT body is the built upload body, whose
issue.uploads value is the one-element list with exactly the token, the
final path segment of the local path as filename, and the declared
content type. -/
theorem C7_attach_body_shape (s : ClientState) (filepath : String)
    (issue_id : Int) (content_type notes : String) (sc : Option Int)
    (postT putT : Transport) (tok : JVal)
    (h201 : (postT 0).status_code = 201)
    (htok : extractToken (postT 0).content = some tok) :
    (upload_file s filepath issue_id content_type "" notes sc
        postT putT).putBody
      = some (upload_attach_body tok (splitTail filepath)
          content_type notes sc) ∧
    ((upload_attach_body tok (splitTail filepath)
        content_type notes sc).lookupKey "issue").bind
        (fun v => v.lookupKey "uploads")
      = some (.arr [.obj [("token", tok),
          ("filename", JVal.str (splitTail filepath)),
          ("content_type", JVal.str content_type)]]) := by
  constructor
  · rw [upload_file_attached_eq s filepath issue_id content_type ""
      notes sc postT putT tok h201 htok]
    rfl
  · rcases sc with _ | c <;> rfl

/-- C7 witness: with a local path ending in report.pdf, token abc123 and
content type application/pdf, the attach body carries exactly that
uploads entry. -/
theorem C7_witness :
    (upload_file s0 "/data/reports/report.pdf" 42 "application/pdf" ""
        "note" none post201 unauthThen201).putBody
      = some (upload_attach_body (.str "abc123") "report.pdf"
          "application/pdf" "note" none) ∧
    ((upload_attach_body (.str "abc123") "report.pdf" "application/pdf"
        "note" none).lookupKey "issue").bind
        (fun v => v.lookupKey "uploads")
      = some (.arr [.obj [("token", .str "abc123"),
          ("filename", JVal.str "report.pdf"),
          ("content_type", JVal.str "application/pdf")]]) :=
  C7_attach_body_shape s0 "/data/reports/report.pdf" 42 "application/pdf"
    "note" none post201 unauthThen201 (.str "abc123") rfl rfl

/-- C8: construction fails with the invalid-URL RedmineConnectionError
exactly when the parsed URL has an empty scheme or an empty netloc, and
otherwise succeeds storing the URL, key and wait unchanged; the check is
a pure computation on the URL string, performed before any request. -/
theorem C8_url_validation (url api_key : String) (w : Nat) :
    (((urlparse url).scheme = "" ∨ (urlparse url).netloc = "") →
      init url api_key w = Except.error "Invalid URL") ∧
    (¬((urlparse url).scheme = "" ∨ (urlparse url).netloc = "") →
      init url api_key w = Except.ok ⟨url, api_key, w⟩) := by
  constructor
  · intro hor
    rcases hor with h | h <;> simp [init, url_validator, h]
  · intro hno
    push_neg at hno
    simp [init, url_validator, bne_iff_ne, hno.1, hno.2]

/-- C8 witness: a well-formed absolute URL constructs successfully with
the URL stored unchanged; a URL without scheme and host is rejected. -/
theorem C8_witness :
    init "http://redmine.example.com/" "key" 60
      = Except.ok ⟨"http://redmine.example.com/", "key", 60⟩ ∧
    init "redmine.example.com" "key" 60 = Except.error "Invalid URL" :=
  ⟨(C8_url_validation "http://redmine.example.com/" "key" 60).2 (by decide),
   (C8_url_validation "redmine.example.com" "key" 60).1 (by decide)⟩

/-- C9: every PUT-path operation that reaches the PUT resets the stored
wait to 60 beforehand — `update_issue` always, `upload_file` and
`assign_to_author` whenever they issue the PUT — so all PUT sleeps last
60 seconds and a GET run from the resulting state also sleeps 60 between
retries, whatever wait was configured; no operation ever changes the
stored URL or API key. -/
theorem C9_put_resets_wait (s : ClientState) (issue_id : Int)
    (notes : Option String) (sc aid : Option Int)
    (filepath content_type fnou anotes : String) (usc : Option Int)
    (dec : Bool) (project : String) (num_issues : Nat)
    (t postT putT getT gT2 : Transport) :
    ((update_issue s issue_id notes sc aid t).state
        = { s with wait := 60 } ∧
      ∀ x ∈ (update_issue s issue_id notes sc aid t).trace.sleeps,
        x = 60) ∧
    ((upload_file s filepath issue_id content_type fnou anotes usc
        postT putT).state.url = s.url ∧
      (upload_file s filepath issue_id content_type fnou anotes usc
        postT putT).state.api_key = s.api_key ∧
      ((upload_file s filepath issue_id content_type fnou anotes usc
          postT putT).putRequests ≠ 0 →
        (upload_file s filepath issue_id content_type fnou anotes usc
          postT putT).state = { s with wait := 60 } ∧
        ∀ x ∈ (upload_file s filepath issue_id content_type fnou anotes usc
          postT putT).putSleeps, x = 60)) ∧
    ((assign_to_author s issue_id notes sc getT putT).state.url = s.url ∧
      (assign_to_author s issue_id notes sc getT putT).state.api_key
        = s.api_key ∧
      ((assign_to_author s issue_id notes sc getT putT).putRequests ≠ 0 →
        (assign_to_author s issue_id notes sc getT putT).state
          = { s with wait := 60 })) ∧
    (∀ x ∈ (get_request_timeout { s with wait := 60 } gT2).2.sleeps,
      x = 60) ∧
    (get_new_issues s project num_issues t).2.2 = s ∧
    (get_issue_data s issue_id t).2.2 = s ∧
    (download_file s dec t).2.2 = s := by
  refine ⟨⟨rfl, ?_⟩, ?_, ?_, ?_, rfl, rfl, rfl⟩
  · intro x hx
    exact putAux_sleeps 60 t 10 (t 0) 1 []
      (fun y hy => absurd hy (List.not_mem_nil y)) x hx
  · by_cases h201 : (postT 0).status_code = 201
    · rcases htok : extractToken (postT 0).content with _ | tok
      · rw [upload_file_missing_eq s filepath issue_id content_type fnou
          anotes usc postT putT h201 htok]
        exact ⟨rfl, rfl, fun h => absurd rfl h⟩
      · rw [upload_file_attached_eq s filepath issue_id content_type fnou
          anotes usc postT putT tok h201 htok]
        refine ⟨rfl, rfl, fun _ => ⟨rfl, ?_⟩⟩
        intro x hx
        exact putAux_sleeps 60 putT 10 (putT 0) 1 []
          (fun y hy => absurd hy (List.not_mem_nil y)) x hx
    · rw [upload_file_fail_eq s filepath issue_id content_type fnou
        anotes usc postT putT h201]
      exact ⟨rfl, rfl, fun h => absurd rfl h⟩
  · rcases hg : get_request_timeout s getT with ⟨g, gtr⟩
    rcases g with doc | b | ⟨st, bd⟩
    · rcases ha : authorId doc with _ | v
      · simp only [assign_to_author, hg, ha]
        exact ⟨trivial, trivial, fun h => absurd rfl h⟩
      · rcases v with _ | b2 | n2 | s2 | l2 | f2 <;>
          simp only [assign_to_author, hg, ha]
        case num => exact ⟨rfl, rfl, fun _ => rfl⟩
        all_goals exact ⟨trivial, trivial, fun h => absurd rfl h⟩
    · simp only [assign_to_author, hg]
      exact ⟨trivial, trivial, fun h => absurd rfl h⟩
    · simp only [assign_to_author, hg]
      exact ⟨trivial, trivial, fun h => absurd rfl h⟩
  · intro x hx
    exact getAux_sleeps 60 gT2 10 (gT2 0) 1 []
      (fun y hy => absurd hy (List.not_mem_nil y)) x hx

/-- C9 witness: with a configured wait of 5, `update_issue` and a
token-yielding `upload_file` leave the state with wait 60 and URL and key
unchanged, and a GET loop does not touch the state. -/
theorem C9_witness :
    (update_issue s0 7 (some "done") none none always500).state
      = { s0 with wait := 60 } ∧
    (upload_file s0 "/tmp/a.txt" 7 "text/plain" "" "" none post201
        always500).state = { s0 with wait := 60 } ∧
    (get_new_issues s0 "cfia" 25 always500).2.2 = s0 := by
  have h := C9_put_resets_wait s0 7 (some "done") none none "/tmp/a.txt"
    "text/plain" "" "" none true "cfia" 25 always500 post201 always500
    always500 always500
  exact ⟨h.1.1, (h.2.1.2.2 (by decide)).1, h.2.2.2.2.1⟩

/-- C10: in each of the three retry loops there is a response sequence —
ten 500s then a 200 — on which the 11th request is still issued, returns
a success status, and is nevertheless discarded: the run raises the
exhaustion RedmineConnectionError built from that successful response. -/
theorem C10_final_success_discarded :
    ((failThen200 10).status_code = 200 ∧
      (get_request_timeout s0 failThen200).2.requests = 11 ∧
      (get_request_timeout s0 failThen200).1 =
        .exhausted 200 (.str "ok")) ∧
    ((put_request_timeout s0 JVal.null failThen200).trace.requests = 11 ∧
      (put_request_timeout s0 JVal.null failThen200).outcome =
        .exhausted 200 (.str "ok")) ∧
    ((download_file s0 true failThen200).2.1.requests = 11 ∧
      (download_file s0 true failThen200).1 =
        .exhausted 200 (.str "ok")) :=
  ⟨⟨rfl, rfl, rfl⟩, ⟨rfl, rfl⟩, ⟨rfl, rfl⟩⟩

end RedmineAPI
